import Mathlib

/-!
Shallow embedding of the BLS ZK prover (prover/src/lib.rs of blsZK).

The Rust library parses snarkjs artifacts (a binary `.zkey` container and a
`verification_key.json` document) into BN254 curve data, and drives proof
generation, local verification and Solidity-calldata export by shelling out
to the external `node` / `snarkjs` tools.

Modelling conventions:
  * machine integers are `Nat` (all reads produce values below the relevant
    bound by construction; no arithmetic in the source overflows on the paths
    modelled);
  * bytes are `Nat` values below 256, byte buffers are `List Nat`;
  * a Rust index-out-of-bounds (a crash of the process) is modelled by
    `Option`: `none` is the uncaught Rust abort, `some (Except.error m)` is a
    caught `Err(m)` return, `some (Except.ok v)` a normal return;
  * the arkworks affine-point constructors `G1Affine::new` / `G2Affine::new`
    assert that the point is on the curve and in the prime-order subgroup and
    abort otherwise; `PointResult.panicked` models that abort;
  * field elements of BN254's base field are canonical `Nat` values below
    `fqPrime`; `Fq2` elements are pairs `(c0, c1)` standing for c0 + c1 * u;
  * external effects (file system, child processes, serde's JSON parser) are
    an explicit environment `ExtEnv` plus a threaded file-system state `FS`;
    a `serde_json::Value` is modelled by its canonical compact serialization,
    so `serde_json::to_vec` on a parsed value is the identity on that string.
-/

/-- Base-field modulus q of BN254 (the curve used by snarkjs for Groth16). -/
def fqPrime : Nat :=
  21888242871839275222246405745257275088696311157297823662689037894645226208583

/-- Scalar-field modulus r of BN254 (the order of G1 and of the G2 subgroup). -/
def frOrder : Nat :=
  21888242871839275222246405745257275088548364400416034343698204186575808495617

/-- A BN254 base-field element, canonically reduced. -/
abbrev Fq := Nat

/-- A quadratic-extension element c0 + c1 * u. -/
abbrev Fq2 := Fq × Fq

/-- An affine G1 point (x, y); the code paths modelled never construct the
point at infinity, so the arkworks `infinity` flag is omitted. -/
abbrev G1Affine := Fq × Fq

/-- An affine G2 point (x, y) with coordinates in Fq2. -/
abbrev G2Affine := Fq2 × Fq2

def fq2Zero : Fq2 := (0, 0)

def fq2One : Fq2 := (1, 0)

def fq2Add (a b : Fq2) : Fq2 :=
  ((a.1 + b.1) % fqPrime, (a.2 + b.2) % fqPrime)

def fq2Sub (a b : Fq2) : Fq2 :=
  ((a.1 % fqPrime + (fqPrime - b.1 % fqPrime)) % fqPrime,
   (a.2 % fqPrime + (fqPrime - b.2 % fqPrime)) % fqPrime)

/-- (a0 + a1 u)(b0 + b1 u) with u^2 = -1 on BN254. -/
def fq2Mul (a b : Fq2) : Fq2 :=
  ((a.1 * b.1 + (fqPrime * fqPrime - (a.2 % fqPrime) * (b.2 % fqPrime))) % fqPrime,
   (a.1 * b.2 + a.2 * b.1) % fqPrime)

def fq2Double (a : Fq2) : Fq2 := fq2Add a a

/-- The G2 curve coefficient b'' = 3/(9+u) of ark-bn254. -/
def g2CoeffB : Fq2 :=
  (19485874751759354771024239261021720505790618469301721065564631296452457478373,
   266929791119991161246907387137283842545076965332900288569378510910307636690)

/-- On-curve test for G1: y^2 = x^3 + 3 over Fq. -/
def g1OnCurve (x y : Fq) : Bool :=
  (y * y) % fqPrime == (x * x * x + 3) % fqPrime

/-- On-curve test for G2: y^2 = x^3 + b'' over Fq2. -/
def g2OnCurve (x y : Fq2) : Bool :=
  fq2Mul y y == fq2Add (fq2Mul x (fq2Mul x x)) g2CoeffB

/-- Outcome of a point-producing operation: a normal value, a caught
`Err(msg)` return, or an uncaught abort inside an arkworks assertion. -/
inductive PointResult (α : Type) where
  | ok (val : α)
  | err (msg : String)
  | panicked
deriving DecidableEq, Repr

/-- `G1Affine::new(x, y)` of arkworks: asserts the point is on the curve.
The G1 cofactor of BN254 is 1, so the subgroup assertion is trivially true. -/
def g1New (x y : Fq) : PointResult G1Affine :=
  if g1OnCurve x y then PointResult.ok (x, y) else PointResult.panicked

/-- A G2 point in Jacobian coordinates; z = 0 encodes the point at infinity.
Used only to model the arkworks subgroup assertion (multiplication by r). -/
structure G2Jac where
  x : Fq2
  y : Fq2
  z : Fq2

def g2JacInf : G2Jac := ⟨fq2One, fq2One, fq2Zero⟩

def g2JacDouble (p : G2Jac) : G2Jac :=
  if p.z == fq2Zero then p else
  let a := fq2Mul p.x p.x
  let b := fq2Mul p.y p.y
  let c := fq2Mul b b
  let t := fq2Add p.x b
  let d := fq2Double (fq2Sub (fq2Sub (fq2Mul t t) a) c)
  let e := fq2Add (fq2Add a a) a
  let f := fq2Mul e e
  let x3 := fq2Sub f (fq2Double d)
  let c8 := fq2Double (fq2Double (fq2Double c))
  let y3 := fq2Sub (fq2Mul e (fq2Sub d x3)) c8
  let z3 := fq2Double (fq2Mul p.y p.z)
  ⟨x3, y3, z3⟩

def g2JacAdd (p q : G2Jac) : G2Jac :=
  if p.z == fq2Zero then q else if q.z == fq2Zero then p else
  let z1z1 := fq2Mul p.z p.z
  let z2z2 := fq2Mul q.z q.z
  let u1 := fq2Mul p.x z2z2
  let u2 := fq2Mul q.x z1z1
  let s1 := fq2Mul p.y (fq2Mul q.z z2z2)
  let s2 := fq2Mul q.y (fq2Mul p.z z1z1)
  if u1 == u2 then
    if s1 == s2 then g2JacDouble p else g2JacInf
  else
    let hh := fq2Sub u2 u1
    let i := fq2Mul (fq2Double hh) (fq2Double hh)
    let j := fq2Mul hh i
    let rr := fq2Double (fq2Sub s2 s1)
    let v := fq2Mul u1 i
    let x3 := fq2Sub (fq2Sub (fq2Mul rr rr) j) (fq2Double v)
    let y3 := fq2Sub (fq2Mul rr (fq2Sub v x3)) (fq2Double (fq2Mul s1 j))
    let z3 := fq2Mul (fq2Sub (fq2Mul (fq2Add p.z q.z) (fq2Add p.z q.z)) (fq2Add z1z1 z2z2)) hh
    ⟨x3, y3, z3⟩

/-- Binary digits of a natural number, least-significant first. -/
def natBits (n : Nat) : List Bool :=
  if h : n = 0 then [] else (n % 2 == 1) :: natBits (n / 2)
decreasing_by exact Nat.div_lt_self (Nat.pos_of_ne_zero h) (by decide)

/-- Double-and-add scalar multiplication driven by a bit list (LSB first). -/
def g2MulBits : List Bool → G2Jac → G2Jac → G2Jac
  | [], acc, _ => acc
  | b :: bs, acc, base =>
    g2MulBits bs (if b then g2JacAdd acc base else acc) (g2JacDouble base)

/-- Subgroup membership test used by the arkworks `G2Affine::new` assertion:
the point multiplied by the group order r must be the point at infinity. -/
def g2InSubgroup (x y : Fq2) : Bool :=
  (g2MulBits (natBits frOrder) g2JacInf ⟨x, y, fq2One⟩).z == fq2Zero

/-- `G2Affine::new(x, y)` of arkworks: asserts on-curve and subgroup
membership, aborting the process otherwise. -/
def g2New (x y : Fq2) : PointResult G2Affine :=
  if g2OnCurve x y then
    if g2InSubgroup x y then PointResult.ok (x, y) else PointResult.panicked
  else PointResult.panicked

/-- One decimal digit, as `num_bigint` accepts them in radix 10. -/
def decDigit (c : Char) : Option Nat :=
  if '0' ≤ c ∧ c ≤ '9' then some (c.toNat - '0'.toNat) else none

/-- Value of a digit string; `none` if any character is not a digit. -/
def decDigitsVal (cs : List Char) : Option Nat :=
  cs.foldl
    (fun acc c =>
      match acc, decDigit c with
      | some a, some d => some (a * 10 + d)
      | _, _ => none)
    (some 0)

/-- A nonempty all-digit string; `num_bigint` rejects an empty digit run. -/
def decNat (cs : List Char) : Option Nat :=
  match cs with
  | [] => none
  | _ => decDigitsVal cs

/-- `BigInt::parse_bytes(s, 10)`: optional sign followed by decimal digits. -/
def parseBigInt (s : String) : Option Int :=
  match s.data with
  | '+' :: rest => (decNat rest).map (fun n => (n : Int))
  | '-' :: rest => (decNat rest).map (fun n => -(n : Int))
  | cs => (decNat cs).map (fun n => (n : Int))

/-- `Fq::from_be_bytes_mod_order(&big.to_bytes_be().1)`: `to_bytes_be().1` is
the magnitude (sign dropped), and the bytes are reduced modulo q. -/
def fqFromBigInt (i : Int) : Fq := i.natAbs % fqPrime

/-- Big-endian byte interpretation, as `from_be_bytes_mod_order` consumes. -/
def natFromBeBytes (bs : List Nat) : Nat :=
  bs.foldl (fun a b => a * 256 + b) 0

/-- The deserialized shape of snarkjs `verification_key.json`. -/
structure SnarkjsVerificationKey where
  protocol : String
  curve : String
  n_public : Nat
  vk_alpha_1 : List String
  vk_beta_2 : List (List String)
  vk_gamma_2 : List (List String)
  vk_delta_2 : List (List String)
  ic : List (List String)
deriving DecidableEq, Repr

/-- `SnarkjsVerificationKey::parse_g1_point`: rejects coordinate lists with
fewer than 2 entries, then parses the first two decimal strings. -/
def SnarkjsVerificationKey.parse_g1_point (coords : List String) : PointResult G1Affine :=
  if coords.length < 2 then PointResult.err "Invalid G1 point"
  else
    match parseBigInt (coords.getD 0 "") with
    | none => PointResult.err "Invalid X coordinate"
    | some x_big =>
      match parseBigInt (coords.getD 1 "") with
      | none => PointResult.err "Invalid Y coordinate"
      | some y_big => g1New (fqFromBigInt x_big) (fqFromBigInt y_big)

/-- `SnarkjsVerificationKey::parse_g2_point`: expects [[x_c0, x_c1], [y_c0, y_c1]];
any missing entry of that 2-by-2 layout is rejected. -/
def SnarkjsVerificationKey.parse_g2_point (coords : List (List String)) : PointResult G2Affine :=
  if coords.length < 2 ∨ (coords.getD 0 []).length < 2 ∨ (coords.getD 1 []).length < 2 then
    PointResult.err "Invalid G2 point"
  else
    match parseBigInt ((coords.getD 0 []).getD 0 "") with
    | none => PointResult.err "Invalid X c0"
    | some x_c0 =>
      match parseBigInt ((coords.getD 0 []).getD 1 "") with
      | none => PointResult.err "Invalid X c1"
      | some x_c1 =>
        match parseBigInt ((coords.getD 1 []).getD 0 "") with
        | none => PointResult.err "Invalid Y c0"
        | some y_c0 =>
          match parseBigInt ((coords.getD 1 []).getD 1 "") with
          | none => PointResult.err "Invalid Y c1"
          | some y_c1 =>
            g2New (fqFromBigInt x_c0, fqFromBigInt x_c1) (fqFromBigInt y_c0, fqFromBigInt y_c1)

/-- The arkworks `VerifyingKey<Bn254>` data. -/
structure VerifyingKey where
  alpha_g1 : G1Affine
  beta_g2 : G2Affine
  gamma_g2 : G2Affine
  delta_g2 : G2Affine
  gamma_abc_g1 : List G1Affine
deriving DecidableEq, Repr

/-- The arkworks `ProvingKey<Bn254>` data. `ZkeyParser::parse` declares this
as its success payload but never constructs one. -/
structure ProvingKey where
  vk : VerifyingKey
  beta_g1 : G1Affine
  delta_g1 : G1Affine
  a_query : List G1Affine
  b_g1_query : List G1Affine
  b_g2_query : List G2Affine
  h_query : List G1Affine
  l_query : List G1Affine
deriving DecidableEq, Repr

/-- The IC loop in `to_arkworks_vk`: parse every IC entry, propagating the
first failure. -/
def parseICPoints : List (List String) → PointResult (List G1Affine)
  | [] => PointResult.ok []
  | c :: rest =>
    match SnarkjsVerificationKey.parse_g1_point c with
    | PointResult.ok p =>
      match parseICPoints rest with
      | PointResult.ok ps => PointResult.ok (p :: ps)
      | PointResult.err m => PointResult.err m
      | PointResult.panicked => PointResult.panicked
    | PointResult.err m => PointResult.err m
    | PointResult.panicked => PointResult.panicked

/-- `SnarkjsVerificationKey::to_arkworks_vk`. Note: no comparison of
`ic.length` against `n_public + 1` anywhere. -/
def SnarkjsVerificationKey.to_arkworks_vk (vk : SnarkjsVerificationKey) :
    PointResult VerifyingKey :=
  match SnarkjsVerificationKey.parse_g1_point vk.vk_alpha_1 with
  | PointResult.err m => PointResult.err m
  | PointResult.panicked => PointResult.panicked
  | PointResult.ok alpha_g1 =>
    match SnarkjsVerificationKey.parse_g2_point vk.vk_beta_2 with
    | PointResult.err m => PointResult.err m
    | PointResult.panicked => PointResult.panicked
    | PointResult.ok beta_g2 =>
      match SnarkjsVerificationKey.parse_g2_point vk.vk_gamma_2 with
      | PointResult.err m => PointResult.err m
      | PointResult.panicked => PointResult.panicked
      | PointResult.ok gamma_g2 =>
        match SnarkjsVerificationKey.parse_g2_point vk.vk_delta_2 with
        | PointResult.err m => PointResult.err m
        | PointResult.panicked => PointResult.panicked
        | PointResult.ok delta_g2 =>
          match parseICPoints vk.ic with
          | PointResult.err m => PointResult.err m
          | PointResult.panicked => PointResult.panicked
          | PointResult.ok gamma_abc_g1 =>
            PointResult.ok
              { alpha_g1 := alpha_g1, beta_g2 := beta_g2, gamma_g2 := gamma_g2,
                delta_g2 := delta_g2, gamma_abc_g1 := gamma_abc_g1 }

/-- Cursor-based reader over the raw `.zkey` bytes, mirroring the Rust
struct with fields `data` and `pos`. -/
structure ZkeyParser where
  data : List Nat
  pos : Nat
deriving DecidableEq, Repr

/-- `read_u32`: four direct index accesses, little-endian; an access past the
end of `data` is an uncaught Rust abort, modelled as `none`. -/
def ZkeyParser.read_u32 (s : ZkeyParser) : Option (Nat × ZkeyParser) :=
  match s.data.get? s.pos, s.data.get? (s.pos + 1),
        s.data.get? (s.pos + 2), s.data.get? (s.pos + 3) with
  | some b0, some b1, some b2, some b3 =>
    some (b0 + 256 * (b1 + 256 * (b2 + 256 * b3)), { s with pos := s.pos + 4 })
  | _, _, _, _ => none

/-- `read_u64`: eight direct index accesses, little-endian. -/
def ZkeyParser.read_u64 (s : ZkeyParser) : Option (Nat × ZkeyParser) :=
  match s.data.get? s.pos, s.data.get? (s.pos + 1),
        s.data.get? (s.pos + 2), s.data.get? (s.pos + 3),
        s.data.get? (s.pos + 4), s.data.get? (s.pos + 5),
        s.data.get? (s.pos + 6), s.data.get? (s.pos + 7) with
  | some b0, some b1, some b2, some b3, some b4, some b5, some b6, some b7 =>
    some (b0 + 256 * (b1 + 256 * (b2 + 256 * (b3 + 256 * (b4 + 256 * (b5 + 256 * (b6 + 256 * b7)))))),
          { s with pos := s.pos + 8 })
  | _, _, _, _, _, _, _, _ => none

/-- `read_bytes`: the slice `data[pos..pos + n]`, aborting when it would
reach past the end of the buffer. -/
def ZkeyParser.read_bytes (s : ZkeyParser) (n : Nat) : Option (List Nat × ZkeyParser) :=
  if s.pos + n ≤ s.data.length then
    some ((s.data.drop s.pos).take n, { s with pos := s.pos + n })
  else none

/-- `read_g1`: 32 big-endian bytes for X, 32 for Y, then `G1Affine::new`. -/
def ZkeyParser.read_g1 (s : ZkeyParser) : Option (G1Affine × ZkeyParser) :=
  match s.read_bytes 32 with
  | none => none
  | some (xb, s₁) =>
    match s₁.read_bytes 32 with
    | none => none
    | some (yb, s₂) =>
      match g1New (natFromBeBytes xb % fqPrime) (natFromBeBytes yb % fqPrime) with
      | PointResult.ok p => some (p, s₂)
      | _ => none

/-- `read_g2`: four 32-byte base-field elements forming two Fq2 coordinates,
then `G2Affine::new`. -/
def ZkeyParser.read_g2 (s : ZkeyParser) : Option (G2Affine × ZkeyParser) :=
  match s.read_bytes 32 with
  | none => none
  | some (xc0, s₁) =>
    match s₁.read_bytes 32 with
    | none => none
    | some (xc1, s₂) =>
      match s₂.read_bytes 32 with
      | none => none
      | some (yc0, s₃) =>
        match s₃.read_bytes 32 with
        | none => none
        | some (yc1, s₄) =>
          match g2New (natFromBeBytes xc0 % fqPrime, natFromBeBytes xc1 % fqPrime)
                      (natFromBeBytes yc0 % fqPrime, natFromBeBytes yc1 % fqPrime) with
          | PointResult.ok p => some (p, s₄)
          | _ => none

/-- The section-header loop of `parse`: for each section read (type: u32,
size: u64), record (type, payload offset, size) and advance the cursor by
`size` bytes without reading the payload. -/
def ZkeyParser.readSections (s : ZkeyParser) : Nat → Option (List (Nat × Nat × Nat) × ZkeyParser)
  | 0 => some ([], s)
  | n + 1 =>
    match s.read_u32 with
    | none => none
    | some (sectionType, s₁) =>
      match s₁.read_u64 with
      | none => none
      | some (sectionSize, s₂) =>
        match ZkeyParser.readSections { s₂ with pos := s₂.pos + sectionSize } n with
        | none => none
        | some (rest, sEnd) => some ((sectionType, s₂.pos, sectionSize) :: rest, sEnd)

/-- `ZkeyParser::parse`: magic check, version, section-count, header walk,
linear scan for the Groth16 section (type 2), then an explicit unimplemented
error.  The cursor repositioning to the Groth16 payload has no observable
effect.  The two progress prints are not modelled. -/
def ZkeyParser.parse (s : ZkeyParser) : Option (Except String (ProvingKey × VerifyingKey)) :=
  match s.read_u32 with
  | none => none
  | some (magic, s₁) =>
    if magic ≠ 0x796b657a then
      some (Except.error "Invalid zkey file: wrong magic number")
    else
      match s₁.read_u32 with
      | none => none
      | some (_version, s₂) =>
        match s₂.read_u32 with
        | none => none
        | some (numSections, s₃) =>
          match s₃.readSections numSections with
          | none => none
          | some (sections, _s₄) =>
            match sections.find? (fun sec => sec.1 == 2) with
            | none => some (Except.error "Missing Groth16 section")
            | some _groth16Section =>
              some (Except.error
                "Direct zkey parsing not fully implemented - use verification_key.json instead")

/-- `SolidityCalldata`: fields `a`, `b`, `c` and the public inputs, each
decimal/hex strings in the on-chain argument layout. -/
structure SolidityCalldata where
  a : String × String
  b : (String × String) × (String × String)
  c : String × String
  inputs : List String
deriving DecidableEq, Repr

/-- `parse_solidity_calldata`: trims the input (the result is unused) and
returns the hard-coded placeholder calldata, for every input. -/
def parse_solidity_calldata (calldata : String) : Except String SolidityCalldata :=
  let _trimmed := calldata.trim
  Except.ok
    { a := ("0", "0"),
      b := (("0", "0"), ("0", "0")),
      c := ("0", "0"),
      inputs := [] }

/-- The placeholder value `parse_solidity_calldata` always returns. -/
def zeroCalldata : SolidityCalldata :=
  { a := ("0", "0"), b := (("0", "0"), ("0", "0")), c := ("0", "0"), inputs := [] }

structure BLSPublicInputs where
  message_hash : String
  public_key_x : String
  public_key_y : String
deriving DecidableEq, Repr

structure BLSPrivateInputs where
  signature_x : String
  signature_y : String
deriving DecidableEq, Repr

structure BLSProofInputs where
  public_inputs : BLSPublicInputs
  private_inputs : BLSPrivateInputs
deriving DecidableEq, Repr

/-- `ProofResult`; `proof` holds the UTF-8 bytes of `serde_json::to_vec`,
kept as the string they spell. -/
structure ProofResult where
  proof : String
  public_inputs : List String
  solidity_calldata : SolidityCalldata
deriving DecidableEq, Repr

/-- `ProofStats`. The two wall-clock timings are not modelled and are 0. -/
structure ProofStats where
  proving_time_ms : Nat
  verification_time_ms : Nat
  proof_size_bytes : Nat
  num_constraints : Nat
deriving DecidableEq, Repr

/-- The file system: an association of paths to textual contents. -/
abbrev FS := List (String × String)

def fsWrite (fs : FS) (path contents : String) : FS :=
  (path, contents) :: fs.filter (fun e => e.1 != path)

def fsLookup (fs : FS) (path : String) : Option String :=
  (fs.find? (fun e => e.1 == path)).map (fun e => e.2)

/-- `std::fs::read_to_string`, reading the modelled file system. -/
def fsRead (fs : FS) (path : String) : Except String String :=
  match fsLookup fs path with
  | some c => Except.ok c
  | none => Except.error ("No such file: " ++ path)

/-- `std::fs::remove_file` with its `let _ =`-discarded result. -/
def fsRemove (fs : FS) (path : String) : FS :=
  fs.filter (fun e => e.1 != path)

/-- Captured output of a finished child process. -/
structure CmdOutput where
  success : Bool
  stdout : String
  stderr : String
deriving DecidableEq, Repr

/-- The external world: file writes, child-process runs (which may read and
write the file system), and serde's JSON parsing.  `parseJson` returns the
canonical compact serialization of the parsed `serde_json::Value`, so
re-serialization (`to_vec`) is the identity on it. -/
structure ExtEnv where
  write : FS → String → String → Except String FS
  run : FS → String → List String → Except String (CmdOutput × FS)
  parseJson : String → Except String String
  parseStringArray : String → Except String (List String)

def hexDigit (n : Nat) : Char :=
  if n < 10 then Char.ofNat (48 + n) else Char.ofNat (87 + n % 16)

/-- serde's JSON string-character escaping. -/
def escChar (c : Char) : String :=
  if c = '"' then "\\\"" else if c = '\\' then "\\\\"
  else if c = '\n' then "\\n" else if c = '\t' then "\\t" else if c = '\r' then "\\r"
  else if c = Char.ofNat 8 then "\\b" else if c = Char.ofNat 12 then "\\f"
  else if c.toNat < 32 then
    "\\u00" ++ String.singleton (hexDigit (c.toNat / 16)) ++ String.singleton (hexDigit (c.toNat % 16))
  else String.singleton c

def jsonEscape (s : String) : String := String.join (s.data.map escChar)

def jsonStrLit (s : String) : String := "\"" ++ jsonEscape s ++ "\""

/-- `serde_json::to_string` of a `Vec<String>`. -/
def jsonStringArray (xs : List String) : String :=
  "[" ++ String.intercalate "," (xs.map jsonStrLit) ++ "]"

/-- `serde_json::to_string_pretty` of the `json!` input object built in
`generate_proof` (its five keys are already in serde's sorted key order). -/
def inputJsonPretty (inputs : BLSProofInputs) : String :=
  "\x7b\n  \"messageHash\": " ++ jsonStrLit inputs.public_inputs.message_hash ++
  ",\n  \"publicKeyX\": " ++ jsonStrLit inputs.public_inputs.public_key_x ++
  ",\n  \"publicKeyY\": " ++ jsonStrLit inputs.public_inputs.public_key_y ++
  ",\n  \"signatureX\": " ++ jsonStrLit inputs.private_inputs.signature_x ++
  ",\n  \"signatureY\": " ++ jsonStrLit inputs.private_inputs.signature_y ++
  "\n\x7d"

/-- `std::env::temp_dir()`. -/
def tempDir : String := "/tmp"

/-- `SnarkjsProver`: tool paths plus the optionally loaded verifying key. -/
structure SnarkjsProver where
  circuit_path : String
  wasm_path : String
  zkey_path : String
  vk_path : String
  verifying_key : Option VerifyingKey
deriving DecidableEq, Repr

/-- `SnarkjsProver::new`. -/
def SnarkjsProver.new (circuit_dir : String) : SnarkjsProver :=
  { circuit_path := circuit_dir,
    wasm_path := circuit_dir ++ "/build" ++ "/bls_verify_js/bls_verify.wasm",
    zkey_path := circuit_dir ++ "/build" ++ "/bls_verify_final.zkey",
    vk_path := circuit_dir ++ "/build" ++ "/verification_key.json",
    verifying_key := none }

/-- `SnarkjsProver::generate_proof`: write the input JSON, run the witness
generator, run `snarkjs groth16 prove`, read back proof and public inputs,
run `snarkjs groth16 verify` locally, export Solidity calldata (exit status
unchecked), parse it, serialize the proof document, clean up, and return.
Every `?` is an explicit error match; file removals ignore their result. -/
def SnarkjsProver.generate_proof (env : ExtEnv) (self : SnarkjsProver)
    (inputs : BLSProofInputs) (fs : FS) :
    Except String ((ProofResult × ProofStats) × FS) :=
  let input_file := tempDir ++ "/bls_input.json"
  let witness_file := tempDir ++ "/witness.wtns"
  let proof_file := tempDir ++ "/proof.json"
  let public_file := tempDir ++ "/public.json"
  match env.write fs input_file (inputJsonPretty inputs) with
  | Except.error e => Except.error e
  | Except.ok fs₁ =>
    match env.run fs₁ "node"
        [self.circuit_path ++ "/build/bls_verify_js/generate_witness.js",
         self.wasm_path, input_file, witness_file] with
    | Except.error e => Except.error e
    | Except.ok (witness_output, fs₂) =>
      if !witness_output.success then
        Except.error ("Witness generation failed: " ++ witness_output.stderr)
      else
        match env.run fs₂ "snarkjs"
            ["groth16", "prove", self.zkey_path, witness_file, proof_file, public_file] with
        | Except.error e => Except.error e
        | Except.ok (prove_output, fs₃) =>
          if !prove_output.success then
            Except.error ("Proof generation failed: " ++ prove_output.stderr)
          else
            match fsRead fs₃ proof_file with
            | Except.error e => Except.error e
            | Except.ok proofText =>
              match env.parseJson proofText with
              | Except.error e => Except.error e
              | Except.ok proof_json =>
                match fsRead fs₃ public_file with
                | Except.error e => Except.error e
                | Except.ok publicText =>
                  match env.parseStringArray publicText with
                  | Except.error e => Except.error e
                  | Except.ok public_json =>
                    match env.run fs₃ "snarkjs"
                        ["groth16", "verify", self.vk_path, public_file, proof_file] with
                    | Except.error e => Except.error e
                    | Except.ok (verify_output, fs₄) =>
                      if !verify_output.success then
                        Except.error "Proof verification failed"
                      else
                        match env.run fs₄ "snarkjs"
                            ["zkey", "export", "soliditycalldata", public_file, proof_file] with
                        | Except.error e => Except.error e
                        | Except.ok (calldata_output, fs₅) =>
                          match parse_solidity_calldata calldata_output.stdout with
                          | Except.error e => Except.error e
                          | Except.ok solidity_calldata =>
                            let proof_bytes := proof_json
                            let fs₆ :=
                              fsRemove (fsRemove (fsRemove (fsRemove fs₅ input_file)
                                witness_file) proof_file) public_file
                            Except.ok
                              (({ proof := proof_bytes,
                                  public_inputs := public_json,
                                  solidity_calldata := solidity_calldata },
                                { proving_time_ms := 0,
                                  verification_time_ms := 0,
                                  proof_size_bytes := proof_bytes.utf8ByteSize,
                                  num_constraints := 0 }),
                               fs₆)

/-- `SnarkjsProver::verify_proof`: write the proof text and the public-input
array to temp files, run `snarkjs groth16 verify`, remove the files, and
return the child's exit-status success bit.  The loaded `verifying_key` is
never consulted. -/
def SnarkjsProver.verify_proof (env : ExtEnv) (self : SnarkjsProver)
    (proof_json : String) (public_inputs : List String) (fs : FS) :
    Except String (Bool × FS) :=
  let proof_file := tempDir ++ "/verify_proof.json"
  let public_file := tempDir ++ "/verify_public.json"
  match env.write fs proof_file proof_json with
  | Except.error e => Except.error e
  | Except.ok fs₁ =>
    match env.write fs₁ public_file (jsonStringArray public_inputs) with
    | Except.error e => Except.error e
    | Except.ok fs₂ =>
      match env.run fs₂ "snarkjs"
          ["groth16", "verify", self.vk_path, public_file, proof_file] with
      | Except.error e => Except.error e
      | Except.ok (output, fs₃) =>
        let fs₄ := fsRemove (fsRemove fs₃ proof_file) public_file
        Except.ok (output.success, fs₄)

/-- `BLSProver`: thin wrapper delegating to `SnarkjsProver`. -/
structure BLSProver where
  inner : SnarkjsProver
deriving DecidableEq, Repr

def BLSProver.generate_proof (env : ExtEnv) (self : BLSProver)
    (inputs : BLSProofInputs) (fs : FS) :
    Except String ((ProofResult × ProofStats) × FS) :=
  SnarkjsProver.generate_proof env self.inner inputs fs

structure BatchProofResult where
  proofs : List ProofResult
  aggregated_calldata : String
  total_proving_time_ms : Nat
deriving DecidableEq, Repr

structure BatchProver where
  prover : BLSProver
deriving DecidableEq, Repr

/-- The `for (i, input) in inputs.iter().enumerate()` loop of `prove_batch`:
prove each item in order, propagating the first failure via `?`. -/
def batchLoop (env : ExtEnv) (p : BLSProver) :
    List BLSProofInputs → FS → Except String (List ProofResult × FS)
  | [], fs => Except.ok ([], fs)
  | input :: rest, fs =>
    match BLSProver.generate_proof env p input fs with
    | Except.error e => Except.error e
    | Except.ok ((proof, _stats), fs₁) =>
      match batchLoop env p rest fs₁ with
      | Except.error e => Except.error e
      | Except.ok (proofs, fs₂) => Except.ok (proof :: proofs, fs₂)

/-- `BatchProver::prove_batch`: the ordered loop, then aggregated calldata as
the plain concatenation of the individual proof bytes.  The total wall-clock
time is not modelled and reported as 0. -/
def BatchProver.prove_batch (env : ExtEnv) (self : BatchProver)
    (inputs : List BLSProofInputs) (fs : FS) :
    Except String (BatchProofResult × FS) :=
  match batchLoop env self.prover inputs fs with
  | Except.error e => Except.error e
  | Except.ok (proofs, fs₁) =>
    Except.ok
      ({ proofs := proofs,
         aggregated_calldata := String.join (proofs.map (fun p => p.proof)),
         total_proving_time_ms := 0 },
       fs₁)

/-- The spec's concrete test inputs. -/
def goodInputs : BLSProofInputs :=
  { public_inputs := { message_hash := "123456789", public_key_x := "1", public_key_y := "2" },
    private_inputs := { signature_x := "3", signature_y := "4" } }

/-- The same item with a non-numeric `signature_x`, as in the spec's batch
failure scenario. -/
def badInputs : BLSProofInputs :=
  { public_inputs := { message_hash := "123456789", public_key_x := "1", public_key_y := "2" },
    private_inputs := { signature_x := "x", signature_y := "4" } }

/-- A file write that always succeeds. -/
def demoWrite (fs : FS) (path contents : String) : Except String FS :=
  Except.ok (fsWrite fs path contents)

/-- External tools for the demonstration runs: witness generation succeeds
exactly on the written input of `goodInputs` (any other item makes `node`
exit unsuccessfully, as it does on a non-numeric signal), proving writes the
proof and public files, verification and calldata export succeed. -/
def demoRun (fs : FS) (prog : String) (args : List String) :
    Except String (CmdOutput × FS) :=
  if prog = "node" then
    match fsLookup fs (tempDir ++ "/bls_input.json") with
    | some c =>
      if c = inputJsonPretty goodInputs then
        Except.ok ({ success := true, stdout := "", stderr := "" },
                   fsWrite fs (tempDir ++ "/witness.wtns") "wtns")
      else
        Except.ok ({ success := false, stdout := "", stderr := "boom" }, fs)
    | none => Except.ok ({ success := false, stdout := "", stderr := "no input" }, fs)
  else if args.take 2 = ["groth16", "prove"] then
    Except.ok ({ success := true, stdout := "", stderr := "" },
               fsWrite (fsWrite fs (tempDir ++ "/proof.json") "PJ") (tempDir ++ "/public.json") "PUB")
  else if args.take 2 = ["groth16", "verify"] then
    Except.ok ({ success := true, stdout := "", stderr := "" }, fs)
  else
    Except.ok ({ success := true, stdout := "CALLDATA", stderr := "" }, fs)

def demoParseJson (s : String) : Except String String :=
  if s = "PJ" then Except.ok "\"p\"" else Except.error "invalid json"

def demoParseArr (s : String) : Except String (List String) :=
  if s = "PUB" then Except.ok ["7"] else Except.error "invalid json"

def demoEnv : ExtEnv :=
  { write := demoWrite, run := demoRun, parseJson := demoParseJson,
    parseStringArray := demoParseArr }

/-- Same external world, but the proof document produced by the prover run
is a longer one (proof documents vary in size run to run). -/
def demoEnv2 : ExtEnv :=
  { demoEnv with
    parseJson := fun s => if s = "PJ" then Except.ok "\"longer5\"" else Except.error "invalid json" }

def demoProver : SnarkjsProver := SnarkjsProver.new "../circuits"

def demoBatchProver : BatchProver := { prover := { inner := demoProver } }

/-- An environment in which the external verifier exits unsuccessfully (as
`snarkjs groth16 verify` does when the public-input count does not match). -/
def mismatchRun (fs : FS) (_prog : String) (_args : List String) :
    Except String (CmdOutput × FS) :=
  Except.ok ({ success := false, stdout := "", stderr := "snarkjs: invalid inputs" }, fs)

def mismatchEnv : ExtEnv := { demoEnv with run := mismatchRun }

/-- A loaded verifying key whose IC vector has length 4, i.e. three expected
public inputs. -/
def mismatchVK : VerifyingKey :=
  { alpha_g1 := (1, 2), beta_g2 := ((0, 0), (0, 0)), gamma_g2 := ((0, 0), (0, 0)),
    delta_g2 := ((0, 0), (0, 0)), gamma_abc_g1 := [(1, 2), (1, 2), (1, 2), (1, 2)] }

def mismatchProver : SnarkjsProver := { demoProver with verifying_key := some mismatchVK }


/-- Helper for observing a proof's byte size out of a `generate_proof`
result. -/
def proofSizeOf (r : Except String ((ProofResult × ProofStats) × FS)) : Option Nat :=
  match r with
  | Except.ok ((pr, _), _) => some pr.proof.utf8ByteSize
  | Except.error _ => none

/-- The proof record produced by a successful demonstration run. -/
def demoProofResult : ProofResult :=
  { proof := "\"p\"", public_inputs := ["7"], solidity_calldata := zeroCalldata }

/-- The full result of `generate_proof demoEnv demoProver goodInputs []`. -/
def demoGoodRes : (ProofResult × ProofStats) × FS :=
  ((demoProofResult,
    { proving_time_ms := 0, verification_time_ms := 0, proof_size_bytes := 3,
      num_constraints := 0 }),
   [])

/-- The batch result of the successful singleton demonstration batch. -/
def demoBatchRes : BatchProofResult :=
  { proofs := [demoProofResult], aggregated_calldata := "\"p\"",
    total_proving_time_ms := 0 }

/-- Claim C1: `parse_solidity_calldata` never reports a calldata-unavailable
error; for every input text, parseable or not, it returns a success result
whose a, b, c components are the placeholder zero strings and whose public
inputs are empty.  This proves the claimed error reporting absent. -/
theorem parse_solidity_calldata_always_placeholder :
    ∀ s : String, parse_solidity_calldata s = Except.ok zeroCalldata :=
  fun _ => rfl

/-- Claim C2: `verify_proof` performs no public-input-length check at all.
Its result never depends on the loaded verifying key (first conjunct), and
with a loaded IC of length 4 (three expected public inputs) a call with two
public inputs, on which the external verifier exits unsuccessfully, returns
the plain verification result `Ok false` - no LengthMismatchError exists. -/
theorem verify_proof_coerces_failure_to_false :
    (∀ (env : ExtEnv) (p : SnarkjsProver) (pj : String) (pubs : List String) (fs : FS)
       (vk₁ vk₂ : Option VerifyingKey),
       SnarkjsProver.verify_proof env { p with verifying_key := vk₁ } pj pubs fs
         = SnarkjsProver.verify_proof env { p with verifying_key := vk₂ } pj pubs fs)
    ∧ mismatchVK.gamma_abc_g1.length = 4
    ∧ SnarkjsProver.verify_proof mismatchEnv mismatchProver "pf" ["1", "2"] []
        = Except.ok (false, []) :=
  ⟨fun _ _ _ _ _ _ _ => rfl, rfl, rfl⟩

/-- Claim C3: the proof bytes handed back by `generate_proof` are the JSON
serialization of the external tool's proof document and are not fixed-size:
two successful runs of the same prover on the same inputs yield proof byte
strings of lengths 3 and 9. -/
theorem proof_bytes_variable_size :
    proofSizeOf (SnarkjsProver.generate_proof demoEnv demoProver goodInputs []) = some 3
    ∧ proofSizeOf (SnarkjsProver.generate_proof demoEnv2 demoProver goodInputs []) = some 9 :=
  ⟨rfl, rfl⟩

/-- Claim C4: on truncated buffers `ZkeyParser::parse` aborts inside a raw
index access (modelled by `none`) instead of failing with a caught
truncation error: shown for the empty buffer, for a buffer ending right
after the section count, and for a buffer whose single parsed header declares
a 1000-byte payload the buffer does not contain (the cursor walk jumps past
the end and the next header read aborts). -/
theorem zkey_parse_truncation_panics :
    ZkeyParser.parse { data := [], pos := 0 } = none
    ∧ ZkeyParser.parse
        { data := [0x7a, 0x65, 0x6b, 0x79, 0, 0, 0, 0, 1, 0, 0, 0], pos := 0 } = none
    ∧ ZkeyParser.parse
        { data := [0x7a, 0x65, 0x6b, 0x79, 0, 0, 0, 0, 2, 0, 0, 0,
                   1, 0, 0, 0, 0xE8, 0x03, 0, 0, 0, 0, 0, 0], pos := 0 } = none :=
  ⟨rfl, rfl, rfl⟩

/-- Claim C5 counterexample: a buffer whose little-endian 4-byte tag equals
the claimed constant 0x7a6b6579 does not pass the magic check - `parse`
rejects it with the wrong-magic FormatError, because the code compares the
tag against 0x796b657a. -/
theorem zkey_magic_spec_constant_rejected :
    ZkeyParser.read_u32 { data := [0x79, 0x65, 0x6b, 0x7a], pos := 0 }
      = some (0x7a6b6579, { data := [0x79, 0x65, 0x6b, 0x7a], pos := 4 })
    ∧ ZkeyParser.parse { data := [0x79, 0x65, 0x6b, 0x7a], pos := 0 }
      = some (Except.error "Invalid zkey file: wrong magic number") :=
  ⟨rfl, rfl⟩

/-- Claim C7 counterexample: the failing index is not surfaced by
`prove_batch` - a batch failing at index 0 and a batch failing at index 1
return the very same bare error value, so the result does not determine
which index failed. -/
theorem prove_batch_failing_index_not_in_error :
    BatchProver.prove_batch demoEnv demoBatchProver [badInputs, goodInputs, goodInputs] []
      = Except.error "Witness generation failed: boom"
    ∧ BatchProver.prove_batch demoEnv demoBatchProver [goodInputs, badInputs, goodInputs] []
      = BatchProver.prove_batch demoEnv demoBatchProver [badInputs, goodInputs, goodInputs] [] :=
  ⟨rfl, rfl⟩

/-- Claim C8: `generate_proof` never consults the engine's setup state: its
result is identical for any two values of the `verifying_key` field (first
conjunct); a freshly constructed prover is in the never-set-up state (second
conjunct); and on such an uninitialized prover `generate_proof` proceeds and
returns a success - there is no SetupNotPerformedError. -/
theorem generate_proof_ignores_setup_state :
    (∀ (env : ExtEnv) (p : SnarkjsProver) (inputs : BLSProofInputs) (fs : FS)
       (vk₁ vk₂ : Option VerifyingKey),
       SnarkjsProver.generate_proof env { p with verifying_key := vk₁ } inputs fs
         = SnarkjsProver.generate_proof env { p with verifying_key := vk₂ } inputs fs)
    ∧ (SnarkjsProver.new "../circuits").verifying_key = none
    ∧ (SnarkjsProver.generate_proof demoEnv (SnarkjsProver.new "../circuits") goodInputs []).isOk
        = true :=
  ⟨fun _ _ _ _ _ _ => rfl, rfl, rfl⟩

/-- Claim C9 counterexample: `parse_g1_point` does not require exactly 2
decimal strings - a 3-element coordinate list is accepted and parsed from
its first two entries, instead of failing with the Invalid-G1-point
FormatError. -/
theorem parse_g1_point_accepts_three_coords :
    SnarkjsVerificationKey.parse_g1_point ["1", "2", "3"] = PointResult.ok (1, 2)
    ∧ (["1", "2", "3"] : List String).length ≠ 2 :=
  ⟨rfl, by decide⟩

/-- Exhaustive enumeration of the outcomes of `ZkeyParser::parse`: an abort
on a truncated read, or one of its three explicit errors - never a success. -/
theorem zkey_parse_cases (s : ZkeyParser) :
    ZkeyParser.parse s = none
    ∨ ZkeyParser.parse s = some (Except.error "Invalid zkey file: wrong magic number")
    ∨ ZkeyParser.parse s = some (Except.error "Missing Groth16 section")
    ∨ ZkeyParser.parse s
        = some (Except.error
            "Direct zkey parsing not fully implemented - use verification_key.json instead") := by
  unfold ZkeyParser.parse
  repeat' split
  all_goals simp

/-- Claim C5 amended: `parse` reads the first 4 bytes as a little-endian u32
tag; whenever that tag differs from the constant 0x796b657a actually used by
the code it fails with the wrong-magic FormatError and nothing else, and
whenever the tag equals 0x796b657a the wrong-magic error is impossible. -/
theorem zkey_magic_check_amended :
    ∀ (d : List Nat) (m : Nat) (s₁ : ZkeyParser),
      ZkeyParser.read_u32 { data := d, pos := 0 } = some (m, s₁) →
      (m ≠ 0x796b657a →
        ZkeyParser.parse { data := d, pos := 0 }
          = some (Except.error "Invalid zkey file: wrong magic number"))
      ∧ (m = 0x796b657a →
        ZkeyParser.parse { data := d, pos := 0 }
          ≠ some (Except.error "Invalid zkey file: wrong magic number")) := by
  intro d m s₁ h
  constructor
  · intro hm
    unfold ZkeyParser.parse
    rw [h]
    simp [hm]
  · intro hm hbad
    subst hm
    simp only [ZkeyParser.parse, h] at hbad
    rw [if_neg (fun hc => hc rfl)] at hbad
    repeat' split at hbad
    all_goals
      first
        | exact Option.noConfusion hbad
        | (injection hbad with hbad; injection hbad with hbad; exact absurd hbad (by decide))

/-- Claim C5 amended, witness: a 4-byte all-zero buffer has tag 0 and is
rejected with the wrong-magic error; the 24-byte demonstration buffer has tag
0x796b657a and its parse outcome is not the wrong-magic error. -/
theorem zkey_magic_check_amended_witness :
    ZkeyParser.parse { data := [0, 0, 0, 0], pos := 0 }
      = some (Except.error "Invalid zkey file: wrong magic number")
    ∧ ZkeyParser.parse
        { data := [0x7a, 0x65, 0x6b, 0x79, 0, 0, 0, 0, 1, 0, 0, 0,
                   1, 0, 0, 0, 0, 0, 0, 0, 0, 0, 0, 0], pos := 0 }
      ≠ some (Except.error "Invalid zkey file: wrong magic number") :=
  ⟨(zkey_magic_check_amended [0, 0, 0, 0] 0 { data := [0, 0, 0, 0], pos := 4 } rfl).1
     (by decide),
   (zkey_magic_check_amended
      [0x7a, 0x65, 0x6b, 0x79, 0, 0, 0, 0, 1, 0, 0, 0,
       1, 0, 0, 0, 0, 0, 0, 0, 0, 0, 0, 0]
      0x796b657a
      { data := [0x7a, 0x65, 0x6b, 0x79, 0, 0, 0, 0, 1, 0, 0, 0,
                 1, 0, 0, 0, 0, 0, 0, 0, 0, 0, 0, 0], pos := 4 }
      rfl).2 rfl⟩

/-- Claim C6: `parse` never returns a success result for any buffer (first
conjunct); whenever the prelude and the header walk succeed and the recorded
headers contain no section of type 2, it fails with the missing-Groth16
section error found by the linear scan (second conjunct); and when a type-2
section is found, it still returns the explicit not-implemented error rather
than fabricated proving-key data (third conjunct). -/
theorem zkey_parse_missing_section_never_ok :
    (∀ s : ZkeyParser,
      ZkeyParser.parse s = none ∨ ∃ msg, ZkeyParser.parse s = some (Except.error msg))
    ∧ (∀ (s₀ s₁ s₂ s₃ s₄ : ZkeyParser) (ver n : Nat) (secs : List (Nat × Nat × Nat)),
        ZkeyParser.read_u32 s₀ = some (0x796b657a, s₁) →
        ZkeyParser.read_u32 s₁ = some (ver, s₂) →
        ZkeyParser.read_u32 s₂ = some (n, s₃) →
        ZkeyParser.readSections s₃ n = some (secs, s₄) →
        (∀ sec ∈ secs, sec.1 ≠ 2) →
        ZkeyParser.parse s₀ = some (Except.error "Missing Groth16 section"))
    ∧ (∀ (s₀ s₁ s₂ s₃ s₄ : ZkeyParser) (ver n : Nat) (secs : List (Nat × Nat × Nat))
        (g : Nat × Nat × Nat),
        ZkeyParser.read_u32 s₀ = some (0x796b657a, s₁) →
        ZkeyParser.read_u32 s₁ = some (ver, s₂) →
        ZkeyParser.read_u32 s₂ = some (n, s₃) →
        ZkeyParser.readSections s₃ n = some (secs, s₄) →
        secs.find? (fun sec => sec.1 == 2) = some g →
        ZkeyParser.parse s₀
          = some (Except.error
              "Direct zkey parsing not fully implemented - use verification_key.json instead")) := by
  refine ⟨?_, ?_, ?_⟩
  · intro s
    rcases zkey_parse_cases s with h | h | h | h
    · exact Or.inl h
    · exact Or.inr ⟨_, h⟩
    · exact Or.inr ⟨_, h⟩
    · exact Or.inr ⟨_, h⟩
  · intro s₀ s₁ s₂ s₃ s₄ ver n secs h1 h2 h3 h4 hsec
    have hfind : secs.find? (fun sec => sec.1 == 2) = none :=
      List.find?_eq_none.mpr (fun x hx => by simpa using hsec x hx)
    simp only [ZkeyParser.parse, h1, h2, h3, h4, hfind]
    rw [if_neg (fun hc => hc rfl)]
  · intro s₀ s₁ s₂ s₃ s₄ ver n secs g h1 h2 h3 h4 hfind
    simp only [ZkeyParser.parse, h1, h2, h3, h4, hfind]
    rw [if_neg (fun hc => hc rfl)]

/-- Claim C6, witness: a well-formed 24-byte buffer with one type-1 section
of size 0 fails with the missing-section error, and the same buffer with the
section typed 2 fails with the explicit not-implemented error. -/
theorem zkey_parse_missing_section_never_ok_witness :
    ZkeyParser.parse
      { data := [0x7a, 0x65, 0x6b, 0x79, 0, 0, 0, 0, 1, 0, 0, 0,
                 1, 0, 0, 0, 0, 0, 0, 0, 0, 0, 0, 0], pos := 0 }
      = some (Except.error "Missing Groth16 section")
    ∧ ZkeyParser.parse
        { data := [0x7a, 0x65, 0x6b, 0x79, 0, 0, 0, 0, 1, 0, 0, 0,
                   2, 0, 0, 0, 0, 0, 0, 0, 0, 0, 0, 0], pos := 0 }
      = some (Except.error
          "Direct zkey parsing not fully implemented - use verification_key.json instead") :=
  ⟨(zkey_parse_missing_section_never_ok).2.1
     { data := [0x7a, 0x65, 0x6b, 0x79, 0, 0, 0, 0, 1, 0, 0, 0,
                1, 0, 0, 0, 0, 0, 0, 0, 0, 0, 0, 0], pos := 0 }
     { data := [0x7a, 0x65, 0x6b, 0x79, 0, 0, 0, 0, 1, 0, 0, 0,
                1, 0, 0, 0, 0, 0, 0, 0, 0, 0, 0, 0], pos := 4 }
     { data := [0x7a, 0x65, 0x6b, 0x79, 0, 0, 0, 0, 1, 0, 0, 0,
                1, 0, 0, 0, 0, 0, 0, 0, 0, 0, 0, 0], pos := 8 }
     { data := [0x7a, 0x65, 0x6b, 0x79, 0, 0, 0, 0, 1, 0, 0, 0,
                1, 0, 0, 0, 0, 0, 0, 0, 0, 0, 0, 0], pos := 12 }
     { data := [0x7a, 0x65, 0x6b, 0x79, 0, 0, 0, 0, 1, 0, 0, 0,
                1, 0, 0, 0, 0, 0, 0, 0, 0, 0, 0, 0], pos := 24 }
     0 1 [(1, 24, 0)] rfl rfl rfl rfl (by decide),
   (zkey_parse_missing_section_never_ok).2.2
     { data := [0x7a, 0x65, 0x6b, 0x79, 0, 0, 0, 0, 1, 0, 0, 0,
                2, 0, 0, 0, 0, 0, 0, 0, 0, 0, 0, 0], pos := 0 }
     { data := [0x7a, 0x65, 0x6b, 0x79, 0, 0, 0, 0, 1, 0, 0, 0,
                2, 0, 0, 0, 0, 0, 0, 0, 0, 0, 0, 0], pos := 4 }
     { data := [0x7a, 0x65, 0x6b, 0x79, 0, 0, 0, 0, 1, 0, 0, 0,
                2, 0, 0, 0, 0, 0, 0, 0, 0, 0, 0, 0], pos := 8 }
     { data := [0x7a, 0x65, 0x6b, 0x79, 0, 0, 0, 0, 1, 0, 0, 0,
                2, 0, 0, 0, 0, 0, 0, 0, 0, 0, 0, 0], pos := 12 }
     { data := [0x7a, 0x65, 0x6b, 0x79, 0, 0, 0, 0, 1, 0, 0, 0,
                2, 0, 0, 0, 0, 0, 0, 0, 0, 0, 0, 0], pos := 24 }
     0 1 [(2, 24, 0)] (2, 24, 0) rfl rfl rfl rfl rfl⟩

/-- Splitting lemma for the batch loop: running it on `pre ++ l` first runs
it on `pre` and, if that succeeds, continues on `l` from the reached file
system, appending the results. -/
theorem batchLoop_append (env : ExtEnv) (p : BLSProver) (pre l : List BLSProofInputs) (fs : FS) :
    batchLoop env p (pre ++ l) fs =
      match batchLoop env p pre fs with
      | Except.error e => Except.error e
      | Except.ok (acc, fs₁) =>
        match batchLoop env p l fs₁ with
        | Except.error e => Except.error e
        | Except.ok (res, fs₂) => Except.ok (acc ++ res, fs₂) := by
  induction pre generalizing fs with
  | nil =>
    simp only [List.nil_append, batchLoop]
    rcases hl : batchLoop env p l fs with e | ⟨res, fs₂⟩ <;> simp
  | cons a pre ih =>
    simp only [List.cons_append, batchLoop, List.append_eq]
    rcases hg : BLSProver.generate_proof env p a fs with e | ⟨⟨proof, stats⟩, fs₁⟩ <;>
      simp only [hg]
    rw [ih fs₁]
    rcases hp : batchLoop env p pre fs₁ with e | ⟨acc, fs₂⟩ <;> simp only [hp]
    rcases hl : batchLoop env p l fs₂ with e | ⟨res, fs₃⟩ <;> simp

/-- A successful batch loop produces exactly one proof per input. -/
theorem batchLoop_length (env : ExtEnv) (p : BLSProver) :
    ∀ (inputs : List BLSProofInputs) (fs fs₁ : FS) (proofs : List ProofResult),
      batchLoop env p inputs fs = Except.ok (proofs, fs₁) → proofs.length = inputs.length := by
  intro inputs
  induction inputs with
  | nil =>
    intro fs fs₁ proofs h
    simp only [batchLoop] at h
    injection h with h
    injection h with h1 h2
    rw [← h1]
    rfl
  | cons a rest ih =>
    intro fs fs₁ proofs h
    simp only [batchLoop] at h
    rcases hg : BLSProver.generate_proof env p a fs with e | ⟨⟨proof, stats⟩, fsa⟩ <;>
      simp only [hg] at h
    · exact Except.noConfusion h
    · rcases hb : batchLoop env p rest fsa with e | ⟨ps, fsb⟩ <;> simp only [hb] at h
      · exact Except.noConfusion h
      · injection h with h
        injection h with h1 h2
        rw [← h1]
        simp [ih fsa fsb ps hb]

/-- Index-for-index correspondence of a successful batch loop: the i-th
output proof is exactly the proof generated from the i-th input item, at the
file-system state reached after proving the first i items in order. -/
theorem batchLoop_index (env : ExtEnv) (p : BLSProver) :
    ∀ (inputs : List BLSProofInputs) (fs fs₁ : FS) (proofs : List ProofResult),
      batchLoop env p inputs fs = Except.ok (proofs, fs₁) →
      ∀ i, i < inputs.length →
        ∃ (input : BLSProofInputs) (pr : ProofResult) (fsBefore : FS) (stats : ProofStats)
          (fsAfter : FS),
          inputs.get? i = some input
          ∧ proofs.get? i = some pr
          ∧ batchLoop env p (inputs.take i) fs = Except.ok (proofs.take i, fsBefore)
          ∧ BLSProver.generate_proof env p input fsBefore = Except.ok ((pr, stats), fsAfter) := by
  intro inputs
  induction inputs with
  | nil =>
    intro fs fs₁ proofs h i hi
    exact absurd hi (by simp)
  | cons a rest ih =>
    intro fs fs₁ proofs h i hi
    simp only [batchLoop] at h
    rcases hg : BLSProver.generate_proof env p a fs with e | ⟨⟨pr, stats⟩, fsa⟩ <;>
      simp only [hg] at h
    · exact Except.noConfusion h
    rcases hb : batchLoop env p rest fsa with e | ⟨ps, fsb⟩ <;> simp only [hb] at h
    · exact Except.noConfusion h
    injection h with h
    injection h with h1 h2
    subst h1
    cases i with
    | zero => exact ⟨a, pr, fs, stats, fsa, rfl, rfl, rfl, hg⟩
    | succ j =>
      obtain ⟨input, prj, fsB, stj, fsA, hin, hpr, htake, hgen⟩ :=
        ih fsa fsb ps hb j (by simpa using hi)
      refine ⟨input, prj, fsB, stj, fsA, ?_, ?_, ?_, hgen⟩
      · simpa using hin
      · simpa using hpr
      · simp only [List.take_succ_cons, batchLoop, hg, htake]

/-- Claim C7 amended: `prove_batch` proves items strictly in input order;
on the first per-item failure it aborts, returning the failing item's bare
underlying error, discards the already-completed results, and its outcome is
unaffected by the items after the failing one; on full success it returns
one proof per input item, aligned index-for-index: the i-th output proof is
the one generated from the i-th input item at the state reached after the
first i items. -/
theorem prove_batch_fail_fast_amended :
    (∀ (env : ExtEnv) (bp : BatchProver) (fs fs₁ : FS) (pre rest rest₂ : List BLSProofInputs)
       (bad : BLSProofInputs) (acc : List ProofResult) (e : String),
       batchLoop env bp.prover pre fs = Except.ok (acc, fs₁) →
       BLSProver.generate_proof env bp.prover bad fs₁ = Except.error e →
       BatchProver.prove_batch env bp (pre ++ bad :: rest) fs = Except.error e
       ∧ BatchProver.prove_batch env bp (pre ++ bad :: rest) fs
           = BatchProver.prove_batch env bp (pre ++ bad :: rest₂) fs)
    ∧ (∀ (env : ExtEnv) (bp : BatchProver) (fs fs₁ : FS) (inputs : List BLSProofInputs)
        (res : BatchProofResult),
        BatchProver.prove_batch env bp inputs fs = Except.ok (res, fs₁) →
        res.proofs.length = inputs.length)
    ∧ (∀ (env : ExtEnv) (bp : BatchProver) (fs fs₁ : FS) (inputs : List BLSProofInputs)
        (res : BatchProofResult),
        BatchProver.prove_batch env bp inputs fs = Except.ok (res, fs₁) →
        ∀ i, i < inputs.length →
          ∃ (input : BLSProofInputs) (pr : ProofResult) (fsBefore : FS) (stats : ProofStats)
            (fsAfter : FS),
            inputs.get? i = some input
            ∧ res.proofs.get? i = some pr
            ∧ batchLoop env bp.prover (inputs.take i) fs
                = Except.ok (res.proofs.take i, fsBefore)
            ∧ BLSProver.generate_proof env bp.prover input fsBefore
                = Except.ok ((pr, stats), fsAfter)) := by
  refine ⟨?_, ?_, ?_⟩
  · intro env bp fs fs₁ pre rest rest₂ bad acc e hpre hbad
    have hloop : ∀ rest₀ : List BLSProofInputs,
        batchLoop env bp.prover (pre ++ bad :: rest₀) fs = Except.error e := by
      intro rest₀
      rw [batchLoop_append, hpre]
      simp only [batchLoop, hbad]
    constructor
    · simp only [BatchProver.prove_batch, hloop rest]
    · simp only [BatchProver.prove_batch, hloop rest, hloop rest₂]
  · intro env bp fs fs₁ inputs res h
    simp only [BatchProver.prove_batch] at h
    rcases hl : batchLoop env bp.prover inputs fs with e | ⟨proofs, fs₂⟩ <;> simp only [hl] at h
    · exact Except.noConfusion h
    · injection h with h
      injection h with h1 h2
      rw [← h1]
      exact batchLoop_length env bp.prover inputs fs fs₂ proofs hl
  · intro env bp fs fs₁ inputs res h i hi
    simp only [BatchProver.prove_batch] at h
    rcases hl : batchLoop env bp.prover inputs fs with e | ⟨proofs, fs₂⟩ <;> simp only [hl] at h
    · exact Except.noConfusion h
    · injection h with h
      injection h with h1 h2
      rw [← h1]
      exact batchLoop_index env bp.prover inputs fs fs₂ proofs hl i hi

/-- Claim C7 amended, witness: a two-item batch whose second item fails
returns the bare witness-generation error, and its result coincides with
that of the three-item batch extending it, showing items after the failing
index do not influence the outcome; the successful singleton batch has one
proof per input, and its 0-th proof is generated from its 0-th input. -/
theorem prove_batch_fail_fast_amended_witness :
    (BatchProver.prove_batch demoEnv demoBatchProver [goodInputs, badInputs] []
      = Except.error "Witness generation failed: boom"
    ∧ BatchProver.prove_batch demoEnv demoBatchProver [goodInputs, badInputs] []
      = BatchProver.prove_batch demoEnv demoBatchProver [goodInputs, badInputs, goodInputs] [])
    ∧ demoBatchRes.proofs.length = [goodInputs].length
    ∧ (∃ (input : BLSProofInputs) (pr : ProofResult) (fsBefore : FS) (stats : ProofStats)
        (fsAfter : FS),
        [goodInputs].get? 0 = some input
        ∧ demoBatchRes.proofs.get? 0 = some pr
        ∧ batchLoop demoEnv demoBatchProver.prover ([goodInputs].take 0) []
            = Except.ok (demoBatchRes.proofs.take 0, fsBefore)
        ∧ BLSProver.generate_proof demoEnv demoBatchProver.prover input fsBefore
            = Except.ok ((pr, stats), fsAfter)) :=
  ⟨(prove_batch_fail_fast_amended).1 demoEnv demoBatchProver [] [] [goodInputs] [] [goodInputs]
     badInputs [demoProofResult] "Witness generation failed: boom" rfl rfl,
   (prove_batch_fail_fast_amended).2.1 demoEnv demoBatchProver [] [] [goodInputs]
     demoBatchRes rfl,
   (prove_batch_fail_fast_amended).2.2 demoEnv demoBatchProver [] [] [goodInputs]
     demoBatchRes rfl 0 (by decide)⟩

/-- Claim C9 amended: `parse_g1_point` fails with the Invalid-G1-point
FormatError exactly when fewer than 2 coordinate strings are supplied, and
`parse_g2_point` fails with the Invalid-G2-point FormatError exactly when
some entry of the [[x_c0, x_c1], [y_c0, y_c1]] 2-by-2 layout is missing. -/
theorem parse_point_shape_errors_amended :
    (∀ coords : List String, coords.length < 2 →
       SnarkjsVerificationKey.parse_g1_point coords = PointResult.err "Invalid G1 point")
    ∧ (∀ coords : List String, ¬ coords.length < 2 →
       SnarkjsVerificationKey.parse_g1_point coords ≠ PointResult.err "Invalid G1 point")
    ∧ (∀ coords : List (List String),
        coords.length < 2 ∨ (coords.getD 0 []).length < 2 ∨ (coords.getD 1 []).length < 2 →
        SnarkjsVerificationKey.parse_g2_point coords = PointResult.err "Invalid G2 point")
    ∧ (∀ coords : List (List String),
        ¬ (coords.length < 2 ∨ (coords.getD 0 []).length < 2 ∨ (coords.getD 1 []).length < 2) →
        SnarkjsVerificationKey.parse_g2_point coords ≠ PointResult.err "Invalid G2 point") := by
  refine ⟨?_, ?_, ?_, ?_⟩
  · intro coords h
    simp only [SnarkjsVerificationKey.parse_g1_point, if_pos h]
  · intro coords h hbad
    simp only [SnarkjsVerificationKey.parse_g1_point, if_neg h, g1New] at hbad
    repeat' split at hbad
    all_goals first
      | exact PointResult.noConfusion hbad
      | (injection hbad with hbad; exact absurd hbad (by decide))
  · intro coords h
    simp only [SnarkjsVerificationKey.parse_g2_point, if_pos h]
  · intro coords h hbad
    simp only [SnarkjsVerificationKey.parse_g2_point, if_neg h, g2New] at hbad
    repeat' split at hbad
    all_goals first
      | exact PointResult.noConfusion hbad
      | (injection hbad with hbad; exact absurd hbad (by decide))

/-- Claim C9 amended, witness: concrete instances of all four directions -
too-short G1 list, 3-element G1 list, G2 rows with a missing entry, and a
complete 2-by-2 G2 layout. -/
theorem parse_point_shape_errors_amended_witness :
    SnarkjsVerificationKey.parse_g1_point ["1"] = PointResult.err "Invalid G1 point"
    ∧ SnarkjsVerificationKey.parse_g1_point ["1", "2", "3"] ≠ PointResult.err "Invalid G1 point"
    ∧ SnarkjsVerificationKey.parse_g2_point [["1"], ["2", "3"]]
        = PointResult.err "Invalid G2 point"
    ∧ SnarkjsVerificationKey.parse_g2_point [["1", "2"], ["3", "4"]]
        ≠ PointResult.err "Invalid G2 point" :=
  ⟨(parse_point_shape_errors_amended).1 ["1"] (by decide),
   (parse_point_shape_errors_amended).2.1 ["1", "2", "3"] (by decide),
   (parse_point_shape_errors_amended).2.2.1 [["1"], ["2", "3"]] (by decide),
   (parse_point_shape_errors_amended).2.2.2 [["1", "2"], ["3", "4"]] (by decide)⟩

/-- Claim C10: whenever `generate_proof` returns a success, the local
verification run it performed via the external verifier exited successfully;
an unsuccessful local verification makes `generate_proof` return an error
before any result is assembled. -/
theorem generate_proof_ok_implies_local_verify_success :
    ∀ (env : ExtEnv) (self : SnarkjsProver) (inputs : BLSProofInputs) (fs : FS)
      (r : (ProofResult × ProofStats) × FS),
      SnarkjsProver.generate_proof env self inputs fs = Except.ok r →
      ∃ (fsv : FS) (out : CmdOutput) (fs₂ : FS),
        env.run fsv "snarkjs"
            ["groth16", "verify", self.vk_path, tempDir ++ "/public.json",
             tempDir ++ "/proof.json"]
          = Except.ok (out, fs₂) ∧ out.success = true := by
  intro env self inputs fs r h
  simp only [SnarkjsProver.generate_proof] at h
  repeat' split at h
  all_goals try exact Except.noConfusion h
  rename_i x0 vo fsv1 hverify hcond x1 co1 fs51 hcall x2 sc hpc
  refine ⟨_, _, _, hverify, ?_⟩
  simpa using hcond

/-- Claim C10, witness: the demonstration environment run in which
`generate_proof` succeeds on an explicit result value. -/
theorem generate_proof_ok_implies_local_verify_success_witness :
    ∃ (fsv : FS) (out : CmdOutput) (fs₂ : FS),
      demoEnv.run fsv "snarkjs"
          ["groth16", "verify", demoProver.vk_path, tempDir ++ "/public.json",
           tempDir ++ "/proof.json"]
        = Except.ok (out, fs₂) ∧ out.success = true :=
  generate_proof_ok_implies_local_verify_success demoEnv demoProver goodInputs [] demoGoodRes rfl
